import Mathlib

/-!
Verification of the Express backend of the Finalyear medical-record intake
application: a shallow embedding of the authentication and authorization
middleware chain (src/backend/middleware/auth.js), the auth routes
(src/backend/routes/auth.js), the patient routes
(src/backend/routes/patients.js), the symptom routes and the X-ray upload
routes (src/backend/routes/upload.js), together with theorems settling the
behavioural claims about them.

Conventions of the embedding:
- The Supabase collaborator (Postgres tables and the blob bucket) is modelled
  as explicit Lean state: a table is a list of rows, the bucket is a list of
  storage keys.  A query is a pure function over that state; an insert or
  update returns the new state.  Collaborator calls are assumed to succeed
  except where a claim is precisely about a collaborator failure, in which
  case the failure is injected as an explicit Boolean parameter.
- JWT verification (jsonwebtoken) is abstracted as a function argument
  producing a verification outcome, since signature checking itself is
  outside the middleware under scrutiny.
- Wall-clock timestamps are passed in as a Nat parameter named now.
- Row ids generated by the database are passed in as fresh-id parameters.
- A Supabase select with an explicit column list is a projection: a column
  absent from the list is absent from the returned JavaScript object, and a
  property access on a missing key yields undefined, which is falsy.  This
  is modelled by an Option-valued column in the projected row together with
  the truthy coercion below.
-/

namespace MedBackend

/-- Roles of medical personnel, the closed enumeration checked by the
signup validator and the database schema. -/
inductive Role where
  | doctor
  | nurse
  | radiologist
  | admin
deriving DecidableEq, Repr

/-- A row of the medical_personnel table (the credential store).  The
wall-clock audit columns created_at and updated_at are outside the model. -/
structure Personnel where
  id : Nat
  email : String
  password_hash : String
  first_name : String
  last_name : String
  role : Role
  license_number : Option String
  is_active : Bool
  last_login : Option Nat
deriving DecidableEq, Repr

/-- The credential store: the medical_personnel table. -/
abbrev Store := List Personnel

/-- Supabase query: select ... eq id uid ... single. -/
def findById (store : Store) (uid : Nat) : Option Personnel :=
  store.find? (fun p => p.id == uid)

/-- Supabase query: select ... eq email e ... single. -/
def findByEmail (store : Store) (e : String) : Option Personnel :=
  store.find? (fun p => p.email == e)

/-- Outcome of jwt.verify on a presented token: a JsonWebTokenError, a
TokenExpiredError, or the decoded payload carrying userId. -/
inductive VerifyResult where
  | invalid
  | expired
  | ok (userId : Nat)
deriving DecidableEq, Repr

/-- Splitting a character list on a separator character, the semantics of
the JavaScript String.split with a one-character separator: the result is
never empty, adjacent separators produce empty groups, and the empty string
splits to one empty group. -/
def splitChar (c : Char) : List Char → List (List Char)
  | [] => [[]]
  | a :: as =>
    let r := splitChar c as
    if a = c then [] :: r
    else (a :: r.headD []) :: r.tail

/-- The JavaScript authHeader.split with a space separator. -/
def jsSplitSpace (s : String) : List String :=
  (splitChar ' ' s.toList).map (fun g => String.mk g)

/-- Bearer token extraction, mirroring authHeader and authHeader.split
at index 1 with the subsequent falsy check on the token: a missing header,
a header with no second word, and an empty second word all read as no
token. -/
def extractBearer (header : Option String) : Option String :=
  match header with
  | none => none
  | some h =>
    match (jsSplitSpace h).drop 1 with
    | [] => none
    | t :: _ => if t = "" then none else some t

/-- Projection of a personnel row through a Supabase column list.  Both
selects of the middleware include id, email and role; the is_active column
is optional because the optionalAuth select omits it, and a JavaScript
property access on a key missing from the returned object yields undefined. -/
structure Row where
  id : Nat
  email : String
  role : Role
  is_active : Option Bool
deriving DecidableEq, Repr

/-- The select list of authenticateToken: id, email, role, is_active. -/
def selectAuthCols (p : Personnel) : Row :=
  { id := p.id, email := p.email, role := p.role, is_active := some p.is_active }

/-- The select list of optionalAuth: id, email, role.  The is_active column
is not part of the projection. -/
def selectOptCols (p : Personnel) : Row :=
  { id := p.id, email := p.email, role := p.role, is_active := none }

/-- JavaScript truthiness of an optionally-present Boolean column: a missing
key reads as undefined, which is falsy. -/
def truthy : Option Bool → Bool
  | none => false
  | some b => b

/-- The identity attached to the request context as req.user. -/
structure AuthUser where
  id : Nat
  email : String
  role : Role
deriving DecidableEq, Repr

/-- The req.user object built from a selected row. -/
def mkAuthUser (r : Row) : AuthUser :=
  { id := r.id, email := r.email, role := r.role }

/-- Outcome of an authentication middleware: respond with an HTTP status, or
call next with an optionally attached req.user. -/
inductive AuthResult where
  | reject (status : Nat)
  | proceed (user : Option AuthUser)
deriving DecidableEq, Repr

/-- The authenticateToken middleware: extract the bearer token (401 when
absent), verify it (401 on JsonWebTokenError or TokenExpiredError), re-fetch
the identity by the decoded userId (401 when missing), reject 403 when the
account is inactive, otherwise attach id, email and role and proceed. -/
def authenticateToken (header : Option String) (verify : String → VerifyResult)
    (store : Store) : AuthResult :=
  match extractBearer header with
  | none => AuthResult.reject 401
  | some token =>
    match verify token with
    | VerifyResult.invalid => AuthResult.reject 401
    | VerifyResult.expired => AuthResult.reject 401
    | VerifyResult.ok userId =>
      match (findById store userId).map selectAuthCols with
      | none => AuthResult.reject 401
      | some user =>
        if truthy user.is_active = false then AuthResult.reject 403
        else AuthResult.proceed (some (mkAuthUser user))

/-- The optionalAuth middleware: the same steps, but every failure falls
through to next with no identity attached.  Its select list omits the
is_active column, so the subsequent user.is_active check reads a missing
key. -/
def optionalAuth (header : Option String) (verify : String → VerifyResult)
    (store : Store) : AuthResult :=
  match extractBearer header with
  | none => AuthResult.proceed none
  | some token =>
    match verify token with
    | VerifyResult.invalid => AuthResult.proceed none
    | VerifyResult.expired => AuthResult.proceed none
    | VerifyResult.ok userId =>
      match (findById store userId).map selectOptCols with
      | none => AuthResult.proceed none
      | some user =>
        if truthy user.is_active then AuthResult.proceed (some (mkAuthUser user))
        else AuthResult.proceed none

/-- Outcome of the role gate: respond with a status or call next (the gate
never modifies req.user). -/
inductive GateResult where
  | reject (status : Nat)
  | proceed
deriving DecidableEq, Repr

/-- The requireRole middleware factory: 401 when no identity is attached,
403 when the attached role is not in the allowed list, next otherwise. -/
def requireRole (allowedRoles : List Role) (user : Option AuthUser) : GateResult :=
  match user with
  | none => GateResult.reject 401
  | some u =>
    if allowedRoles.contains u.role = false then GateResult.reject 403
    else GateResult.proceed

/-- A row of the patients table. -/
structure Patient where
  id : Nat
  first_name : String
  last_name : String
  date_of_birth : String
  gender : String
  phone_number : Option String
  email : Option String
  address : Option String
  medical_history : Option String
  is_deleted : Bool
  created_by : Nat
  updated_by : Option Nat
  deleted_at : Option Nat
  deleted_by : Option Nat
deriving DecidableEq, Repr

/-- The soft-delete handler body of DELETE patients/:id: a Supabase update
setting is_deleted, deleted_at and deleted_by on every row matching the id
(the row stays in the table), answering 200. -/
def softDeletePatient (patients : List Patient) (actor : Nat) (now : Nat)
    (pid : Nat) : List Patient × Nat :=
  (patients.map (fun p =>
      if p.id == pid then
        { p with is_deleted := true, deleted_at := some now, deleted_by := some actor }
      else p),
   200)

/-- The DELETE patients/:id endpoint: the requireRole admin gate followed by
the soft-delete handler.  The gate only proceeds when an identity is
attached, so the final branch is unreachable. -/
def deletePatientRoute (user : Option AuthUser) (patients : List Patient)
    (now : Nat) (pid : Nat) : List Patient × Nat :=
  match requireRole [Role.admin] user with
  | GateResult.reject s => (patients, s)
  | GateResult.proceed =>
    match user with
    | some u => softDeletePatient patients u.id now pid
    | none => (patients, 401)

/-- Case-insensitive prefix test on character lists, a helper for the
Postgres ilike pattern with wildcards on both sides. -/
def startsWithChars : List Char → List Char → Bool
  | [], _ => true
  | _ :: _, [] => false
  | a :: as, b :: bs => a == b && startsWithChars as bs

/-- Contiguous-infix test on character lists. -/
def hasInfixChars (needle : List Char) : List Char → Bool
  | [] => startsWithChars needle []
  | b :: bs => startsWithChars needle (b :: bs) || hasInfixChars needle bs

/-- The Postgres column ilike percent-search-percent filter: case-insensitive
substring containment. -/
def ilike (hay needle : String) : Bool :=
  hasInfixChars (needle.toList.map Char.toLower) (hay.toList.map Char.toLower)

/-- The query part of GET patients: when a search term is present, an or
filter of ilike on first_name, last_name and email; no filter otherwise.
The list stands for the table in query order (created_at descending); a
null email column never matches ilike.  No is_deleted filter is applied. -/
def patientListQuery (patients : List Patient) (search : String) : List Patient :=
  if search ≠ "" then
    patients.filter (fun p =>
      ilike p.first_name search || ilike p.last_name search ||
        (match p.email with
         | some e => ilike e search
         | none => false))
  else patients

/-- The pagination envelope shipped by every list endpoint. -/
structure Pagination where
  currentPage : Nat
  totalPages : Nat
  totalCount : Nat
  limit : Nat
  hasNext : Bool
  hasPrev : Bool
deriving DecidableEq, Repr

/-- The pagination applied by the list endpoints: offset is page minus one
times limit, the Supabase range from offset to offset plus limit minus one
is inclusive, totalPages is the ceiling of count over limit computed as
Math.ceil. -/
def paginate (items : List Patient) (page limit : Nat) : List Patient × Pagination :=
  let offset := (page - 1) * limit
  let count := items.length
  let rows := (items.drop offset).take limit
  let totalPages := (count + limit - 1) / limit
  (rows,
   { currentPage := page, totalPages := totalPages, totalCount := count,
     limit := limit, hasNext := decide (page < totalPages),
     hasPrev := decide (1 < page) })

/-- The GET patients list endpoint: parse pagination, apply the optional
search filter, count and range the query, shape the envelope. -/
def listPatients (patients : List Patient) (page limit : Nat) (search : String) :
    List Patient × Pagination :=
  paginate (patientListQuery patients search) page limit

/-- A concrete verifier used by witnesses: one known token resolving to
subject 1, everything else a JsonWebTokenError. -/
def verifyEx : String → VerifyResult :=
  fun t => if t = "tok1" then VerifyResult.ok 1 else VerifyResult.invalid

/-- A concrete credential store used by witnesses: an active doctor and a
deactivated nurse. -/
def storeEx : Store :=
  [ { id := 1, email := "doc@x.com", password_hash := "h1", first_name := "Dana",
      last_name := "Doc", role := Role.doctor, license_number := some "LIC01",
      is_active := true, last_login := none },
    { id := 2, email := "off@x.com", password_hash := "h2", first_name := "Nia",
      last_name := "Off", role := Role.nurse, license_number := none,
      is_active := false, last_login := none } ]

/-- A concrete patient row used by witnesses. -/
def patEx : Patient :=
  { id := 5, first_name := "Jane", last_name := "Doe", date_of_birth := "1990-02-03",
    gender := "female", phone_number := none, email := some "jane@x.com",
    address := none, medical_history := none, is_deleted := false,
    created_by := 1, updated_by := none, deleted_at := none, deleted_by := none }

/-- A nurse identity and an admin identity used by witnesses. -/
def nurseU : AuthUser := { id := 7, email := "n@x.com", role := Role.nurse }

def adminU : AuthUser := { id := 9, email := "a@x.com", role := Role.admin }

/-- A concrete 25-row patient table used by the pagination witness. -/
def items25 : List Patient :=
  (List.range 25).map (fun i => { patEx with id := i })


/-- The decoded payload of an issued session token: the object passed to
jwt.sign by the auth routes. -/
structure TokenClaims where
  userId : Nat
  email : String
  role : Role
deriving DecidableEq, Repr

/-- The observable response of an auth route: the HTTP status and the claims
of the issued token, none when no token is issued. -/
structure AuthRouteResponse where
  status : Nat
  token : Option TokenClaims
deriving DecidableEq, Repr

/-- The body of POST auth/signup after validation. -/
structure SignupPayload where
  email : String
  password : String
  firstName : String
  lastName : String
  role : Role
  licenseNumber : Option String
deriving DecidableEq, Repr

/-- The row inserted by POST auth/signup for a fresh email. -/
def signupNewUser (hash : String → String) (freshId : Nat)
    (p : SignupPayload) : Personnel :=
  { id := freshId, email := p.email, password_hash := hash p.password,
    first_name := p.firstName, last_name := p.lastName, role := p.role,
    license_number := p.licenseNumber, is_active := true, last_login := none }

/-- The POST auth/signup handler: probe the store by email, answer 409 with
no insert on a hit, otherwise hash the password, insert one active row and
answer 201 with a token for the new identity.  The bcrypt hash is abstracted
as a function argument; the database-generated id as freshId. -/
def signup (store : Store) (hash : String → String) (freshId : Nat)
    (p : SignupPayload) : Store × AuthRouteResponse :=
  match findByEmail store p.email with
  | some _ => (store, { status := 409, token := none })
  | none =>
    (store ++ [signupNewUser hash freshId p],
     { status := 201,
       token := some { userId := freshId, email := p.email, role := p.role } })

/-- The Supabase update of last_login performed by signin after a successful
password check. -/
def updateLastLogin (store : Store) (uid now : Nat) : Store :=
  store.map (fun p => if p.id == uid then { p with last_login := some now } else p)

/-- The POST auth/signin handler: find the identity by email (401 when
missing), 403 when inactive, compare the password against the stored hash
(401 on mismatch, before any mutation), else issue a token and stamp
last_login.  The bcrypt compare is abstracted as a function argument. -/
def signin (store : Store) (compare : String → String → Bool) (now : Nat)
    (email password : String) : Store × AuthRouteResponse :=
  match findByEmail store email with
  | none => (store, { status := 401, token := none })
  | some user =>
    if user.is_active = false then (store, { status := 403, token := none })
    else if compare password user.password_hash = false then
      (store, { status := 401, token := none })
    else
      (updateLastLogin store user.id now,
       { status := 200,
         token := some { userId := user.id, email := user.email, role := user.role } })

/-- A concrete hash and its matching compare, used by witnesses. -/
def hashEx : String → String := fun s => s ++ "#"

def compareEx : String → String → Bool := fun pw h => (pw ++ "#") == h

/-- A concrete credential store holding one active admin, used by the signin
witness. -/
def storeAdmin : Store :=
  [ { id := 3, email := "admin@x.com", password_hash := "Admin123!#",
      first_name := "Ada", last_name := "Admin", role := Role.admin,
      license_number := some "ADMIN001", is_active := true, last_login := none } ]

/-- A concrete signup payload with a fresh email, used by the signup
witness. -/
def signupEx : SignupPayload :=
  { email := "new@x.com", password := "Passw0rd", firstName := "New",
    lastName := "User", role := Role.doctor, licenseNumber := none }


/-- The multer configuration of the upload router: size limit from
MAX_FILE_SIZE defaulting to 10 MiB, allow-list from ALLOWED_FILE_TYPES
defaulting to the JPEG and PNG mime types. -/
structure UploadConfig where
  maxFileSize : Nat
  allowedTypes : List String
deriving DecidableEq, Repr

/-- The default multer configuration with no environment overrides. -/
def defaultUploadConfig : UploadConfig :=
  { maxFileSize := 10 * 1024 * 1024,
    allowedTypes := ["image/jpeg", "image/png", "image/jpg"] }

/-- The binary part received by multer. -/
structure UploadedFile where
  originalname : String
  mimetype : String
  size : Nat
deriving DecidableEq, Repr

/-- Outcome of the multer middleware on one file. -/
inductive MulterResult where
  | invalidType
  | tooLarge
  | accepted (f : UploadedFile)
deriving DecidableEq, Repr

/-- The multer acceptance decision: the fileFilter runs when busboy announces
the file and rejects a disallowed mime type before any bytes are streamed;
the fileSize limit aborts the stream once the byte count passes the limit.
The type decision therefore strictly precedes the size decision; a file at
exactly the limit streams through. -/
def multerCheck (cfg : UploadConfig) (f : UploadedFile) : MulterResult :=
  if cfg.allowedTypes.contains f.mimetype = false then MulterResult.invalidType
  else if cfg.maxFileSize < f.size then MulterResult.tooLarge
  else MulterResult.accepted f

/-- The patient-existence probe shared by the symptom and upload routes:
unlike the patient list and get-by-id queries, it filters is_deleted=false. -/
def findActivePatient (patients : List Patient) (pid : Nat) : Option Patient :=
  patients.find? (fun p => p.id == pid && p.is_deleted == false)

/-- The GET patients/:id query: a single-row fetch by id with no is_deleted
filter (the join of the creating personnel row is outside the model). -/
def getPatientById (patients : List Patient) (pid : Nat) : Option Patient :=
  patients.find? (fun p => p.id == pid)

/-- The total count of GET patients/stats/overview: an exact count filtered
on is_deleted=false. -/
def statsTotalPatients (patients : List Patient) : Nat :=
  (patients.filter (fun p => p.is_deleted == false)).length

/-- The Node path.extname on a file name: the suffix from the last dot,
empty when there is no dot or when the only dot leads the name. -/
def extnameOf (name : String) : String :=
  match splitChar (Char.ofNat 46) name.toList with
  | [] => ""
  | [_] => ""
  | g0 :: gs =>
    if g0.isEmpty && gs.length == 1 then ""
    else "." ++ String.mk (gs.getLastD [])

/-- The generated file name of an uploaded X-ray. -/
def xrayFileName (patientId : Nat) (uuid ext : String) : String :=
  "xray_" ++ toString patientId ++ "_" ++ uuid ++ ext

/-- The generated storage key of an uploaded X-ray, scoped under the owning
patient. -/
def xrayFilePath (patientId : Nat) (uuid ext : String) : String :=
  toString patientId ++ "/" ++ xrayFileName patientId uuid ext

/-- A row of the xray_images table (wall-clock columns outside the model). -/
structure ImageRecord where
  id : Nat
  patient_id : Nat
  file_name : String
  file_path : String
  file_size : Nat
  mime_type : String
  image_type : String
  body_part : String
  notes : Option String
  uploaded_by : Nat
  public_url : String
  updated_by : Option Nat
deriving DecidableEq, Repr

/-- Outcome of the POST upload/xray pipeline.  The two multer rejections are
surfaced by the surrounding error handling as the InvalidFileType and
PayloadTooLarge failures of the spec; their HTTP mapping lives outside the
route module, so the outcome is modelled by kind rather than by status. -/
inductive UploadOutcome where
  | invalidType
  | tooLarge
  | badRequest
  | patientMissing
  | insertFailed
  | created
deriving DecidableEq, Repr

/-- The metadata row inserted by POST upload/xray for an accepted file. -/
def xrayNewRecord (user : AuthUser) (publicUrl : String → String)
    (g : UploadedFile) (pid : Nat) (imageType bodyPart notes : Option String)
    (uuid : String) (freshId : Nat) : ImageRecord :=
  { id := freshId, patient_id := pid,
    file_name := xrayFileName pid uuid (extnameOf g.originalname),
    file_path := xrayFilePath pid uuid (extnameOf g.originalname),
    file_size := g.size, mime_type := g.mimetype,
    image_type := imageType.getD "xray", body_part := bodyPart.getD "unknown",
    notes := notes, uploaded_by := user.id,
    public_url := publicUrl (xrayFilePath pid uuid (extnameOf g.originalname)),
    updated_by := none }

/-- The POST upload/xray pipeline: multer first, then the handler: missing
file or missing patientId answer 400, the active-patient probe answers 404
on a miss, the blob is uploaded to the bucket under the generated key
(collaborator success assumed), then the metadata row is inserted; when the
insert fails, the just-uploaded blob is removed from the bucket before the
500 answer.  The insert failure is injected as dbInsertFails; the uuid of
the storage key, the database id of the new row and the public-url builder
of the bucket are parameters. -/
def uploadXray (cfg : UploadConfig) (patients : List Patient)
    (storage : List String) (rows : List ImageRecord) (user : AuthUser)
    (publicUrl : String → String) (file : Option UploadedFile)
    (patientId : Option Nat) (imageType bodyPart : Option String)
    (notes : Option String) (uuid : String) (freshId : Nat)
    (dbInsertFails : Bool) : List String × List ImageRecord × UploadOutcome :=
  match file with
  | none => (storage, rows, UploadOutcome.badRequest)
  | some f =>
    match multerCheck cfg f with
    | MulterResult.invalidType => (storage, rows, UploadOutcome.invalidType)
    | MulterResult.tooLarge => (storage, rows, UploadOutcome.tooLarge)
    | MulterResult.accepted g =>
      match patientId with
      | none => (storage, rows, UploadOutcome.badRequest)
      | some pid =>
        match findActivePatient patients pid with
        | none => (storage, rows, UploadOutcome.patientMissing)
        | some _ =>
          let filePath := xrayFilePath pid uuid (extnameOf g.originalname)
          let storage1 := storage ++ [filePath]
          if dbInsertFails then
            (storage1.erase filePath, rows, UploadOutcome.insertFailed)
          else
            (storage1,
             rows ++ [xrayNewRecord user publicUrl g pid imageType bodyPart
               notes uuid freshId],
             UploadOutcome.created)

/-- The PUT upload/xray/:id handler: fetch-or-404, overlay the provided
metadata fields and stamp updated_by from the request context. -/
def updateXrayMeta (rows : List ImageRecord) (user : AuthUser) (iid : Nat)
    (notes imageType bodyPart : Option String) : List ImageRecord × Nat :=
  match rows.find? (fun r => r.id == iid) with
  | none => (rows, 404)
  | some _ =>
    (rows.map (fun r =>
      if r.id == iid then
        { r with notes := notes.or r.notes,
                 image_type := imageType.getD r.image_type,
                 body_part := bodyPart.getD r.body_part,
                 updated_by := some user.id }
      else r), 200)

/-- The body of POST patients after validation. -/
structure PatientPayload where
  firstName : String
  lastName : String
  dateOfBirth : String
  gender : String
  phoneNumber : Option String
  email : Option String
  address : Option String
  medicalHistory : Option String
deriving DecidableEq, Repr

/-- The duplicate probe of POST patients: same first name, last name and
date of birth. -/
def findDuplicatePatient (patients : List Patient) (p : PatientPayload) :
    Option Patient :=
  patients.find? (fun q => q.first_name == p.firstName
    && q.last_name == p.lastName && q.date_of_birth == p.dateOfBirth)

/-- The POST patients handler: duplicate probe (409 on a hit), then an
insert carrying created_by from the request context, answering 201. -/
def createPatient (patients : List Patient) (user : AuthUser) (freshId : Nat)
    (p : PatientPayload) : List Patient × Nat :=
  match findDuplicatePatient patients p with
  | some _ => (patients, 409)
  | none =>
    let newPatient : Patient :=
      { id := freshId, first_name := p.firstName, last_name := p.lastName,
        date_of_birth := p.dateOfBirth, gender := p.gender,
        phone_number := p.phoneNumber, email := p.email, address := p.address,
        medical_history := p.medicalHistory, is_deleted := false,
        created_by := user.id, updated_by := none, deleted_at := none,
        deleted_by := none }
    (patients ++ [newPatient], 201)

/-- The partial update body of PUT patients/:id: a field is present exactly
when it was provided in the request. -/
structure PatientUpdate where
  firstName : Option String
  lastName : Option String
  dateOfBirth : Option String
  gender : Option String
  phoneNumber : Option String
  email : Option String
  address : Option String
  medicalHistory : Option String
deriving DecidableEq, Repr

/-- Overlay of the provided update fields on a patient row, stamping
updated_by from the request context. -/
def applyPatientUpdate (u : PatientUpdate) (actor : Nat) (p : Patient) : Patient :=
  { p with first_name := u.firstName.getD p.first_name,
           last_name := u.lastName.getD p.last_name,
           date_of_birth := u.dateOfBirth.getD p.date_of_birth,
           gender := u.gender.getD p.gender,
           phone_number := u.phoneNumber.or p.phone_number,
           email := u.email.or p.email,
           address := u.address.or p.address,
           medical_history := u.medicalHistory.or p.medical_history,
           updated_by := some actor }

/-- The PUT patients/:id handler: the Supabase update matched on the id
answers 404 through the single-row select when no row matches, 200
otherwise. -/
def updatePatient (patients : List Patient) (user : AuthUser) (pid : Nat)
    (u : PatientUpdate) : List Patient × Nat :=
  match patients.find? (fun p => p.id == pid) with
  | none => (patients, 404)
  | some _ =>
    (patients.map (fun p =>
      if p.id == pid then applyPatientUpdate u user.id p else p), 200)

/-- One symptom of the POST symptoms body. -/
structure SymptomInput where
  name : String
  severity : String
  duration : Option String
  notes : Option String
deriving DecidableEq, Repr

/-- A row of the symptoms table. -/
structure SymptomRow where
  id : Nat
  patient_id : Nat
  name : String
  severity : String
  duration : Option String
  notes : Option String
  recorded_by : Nat
  updated_by : Option Nat
deriving DecidableEq, Repr

/-- A row of the symptom_sessions table. -/
structure SymptomSession where
  id : Nat
  patient_id : Nat
  notes : Option String
  recorded_by : Nat
deriving DecidableEq, Repr

/-- The POST symptoms handler: active-patient probe (404 on a miss), bulk
insert of the symptom rows each carrying recorded_by from the request
context, then the session insert also carrying recorded_by (the handler
continues even when the session insert fails; collaborator success is
assumed here), answering 201.  Database ids are derived from the fresh-id
parameters. -/
def recordSymptoms (patients : List Patient) (symRows : List SymptomRow)
    (sessions : List SymptomSession) (user : AuthUser) (patientId : Nat)
    (symptoms : List SymptomInput) (notes : Option String)
    (freshId sessionId : Nat) :
    List SymptomRow × List SymptomSession × Nat :=
  match findActivePatient patients patientId with
  | none => (symRows, sessions, 404)
  | some _ =>
    let symptomsData := symptoms.enum.map (fun s =>
      { id := freshId + s.1, patient_id := patientId, name := s.2.name,
        severity := s.2.severity, duration := s.2.duration, notes := s.2.notes,
        recorded_by := user.id, updated_by := none : SymptomRow })
    let newSession : SymptomSession :=
      { id := sessionId, patient_id := patientId, notes := notes,
        recorded_by := user.id }
    (symRows ++ symptomsData, sessions ++ [newSession], 201)

/-- A concrete oversized file of a disallowed mime type. -/
def bigPdf : UploadedFile :=
  { originalname := "scan.pdf", mimetype := "application/pdf",
    size := 15 * 1024 * 1024 }

/-- A concrete well-formed PNG upload. -/
def smallPng : UploadedFile :=
  { originalname := "chest.png", mimetype := "image/png", size := 2048 }

/-- A concrete patient-creation payload used by witnesses. -/
def patientPayloadEx : PatientPayload :=
  { firstName := "Omar", lastName := "Ray", dateOfBirth := "1985-06-07",
    gender := "male", phoneNumber := none, email := none, address := none,
    medicalHistory := none }

/-- The row created by the patient-creation witness. -/
def createdRowEx : Patient :=
  { id := 11, first_name := "Omar", last_name := "Ray",
    date_of_birth := "1985-06-07", gender := "male", phone_number := none,
    email := none, address := none, medical_history := none,
    is_deleted := false, created_by := adminU.id, updated_by := none,
    deleted_at := none, deleted_by := none }

end MedBackend

namespace MedBackend

/-- C1: the authenticateToken middleware rejects 401 on a missing bearer
token, rejects 401 when the verified token resolves to no identity in the
credential store, rejects 403 when the identity is inactive, and otherwise
attaches id, email and role and proceeds. -/
theorem c1_authenticateToken_cases (header : Option String)
    (verify : String → VerifyResult) (store : Store) :
    (extractBearer header = none →
      authenticateToken header verify store = AuthResult.reject 401)
    ∧ (∀ t uid, extractBearer header = some t → verify t = VerifyResult.ok uid →
        findById store uid = none →
        authenticateToken header verify store = AuthResult.reject 401)
    ∧ (∀ t uid p, extractBearer header = some t → verify t = VerifyResult.ok uid →
        findById store uid = some p → p.is_active = false →
        authenticateToken header verify store = AuthResult.reject 403)
    ∧ (∀ t uid p, extractBearer header = some t → verify t = VerifyResult.ok uid →
        findById store uid = some p → p.is_active = true →
        authenticateToken header verify store =
          AuthResult.proceed (some { id := p.id, email := p.email, role := p.role })) := by
  refine ⟨?_, ?_, ?_, ?_⟩
  · intro h
    simp [authenticateToken, h]
  · intro t uid ht hv hf
    simp [authenticateToken, ht, hv, hf]
  · intro t uid p ht hv hf ha
    simp [authenticateToken, ht, hv, hf, selectAuthCols, truthy, ha]
  · intro t uid p ht hv hf ha
    simp [authenticateToken, ht, hv, hf, selectAuthCols, truthy, ha, mkAuthUser]

theorem c1_witness :
    authenticateToken (some "Bearer tok1") verifyEx storeEx =
      AuthResult.proceed (some { id := 1, email := "doc@x.com", role := Role.doctor }) :=
  (c1_authenticateToken_cases (some "Bearer tok1") verifyEx storeEx).2.2.2
    "tok1" 1
    { id := 1, email := "doc@x.com", password_hash := "h1", first_name := "Dana",
      last_name := "Doc", role := Role.doctor, license_number := some "LIC01",
      is_active := true, last_login := none }
    (by decide) (by decide) (by decide) (by decide)

/-- C3: the optionalAuth middleware never attaches an identity.  Its select
list omits the is_active column, so the user.is_active guard always reads a
missing key, which is falsy; every path therefore proceeds unauthenticated,
even for a valid token of an existing active identity. -/
theorem c3_optionalAuth_never_attaches_identity (header : Option String)
    (verify : String → VerifyResult) (store : Store) :
    optionalAuth header verify store = AuthResult.proceed none := by
  cases h1 : extractBearer header with
  | none => simp [optionalAuth, h1]
  | some t =>
    cases h2 : verify t with
    | invalid => simp [optionalAuth, h1, h2]
    | expired => simp [optionalAuth, h1, h2]
    | ok uid =>
      cases h3 : findById store uid with
      | none => simp [optionalAuth, h1, h2, h3]
      | some p => simp [optionalAuth, h1, h2, h3, selectOptCols, truthy]

/-- Every row of a soft-delete result either is an untouched row of the
original table with a different id, or is flagged deleted with the target id
and carries the acting identity in deleted_by. -/
theorem softDelete_mem_cases {patients : List Patient} {actor now pid : Nat}
    {q : Patient} (hq : q ∈ (softDeletePatient patients actor now pid).1) :
    (q ∈ patients ∧ q.id ≠ pid) ∨
      (q.is_deleted = true ∧ q.id = pid ∧ q.deleted_by = some actor) := by
  rcases List.mem_map.1 hq with ⟨p, hp, rfl⟩
  by_cases h : p.id = pid
  · right
    simp [h]
  · left
    have hb : (p.id == pid) = false := by simp [h]
    simp only [hb, Bool.false_eq_true, if_false]
    exact ⟨hp, h⟩

/-- A row matching the target id survives a soft delete: the result table
still holds a row with that id, now flagged deleted. -/
theorem softDelete_retains {patients : List Patient} {actor now pid : Nat}
    {q : Patient} (hq : q ∈ patients) (hid : q.id = pid) :
    ∃ r ∈ (softDeletePatient patients actor now pid).1,
      r.id = pid ∧ r.is_deleted = true := by
  have hmem := List.mem_map_of_mem
    (fun p => if p.id == pid then
        { p with is_deleted := true, deleted_at := some now, deleted_by := some actor }
      else p) hq
  simp only [hid, beq_self_eq_true, if_true] at hmem
  exact ⟨_, hmem, rfl, rfl⟩

/-- C2: requireRole rejects 401 when no identity is attached to the context,
rejects 403 when the attached role is not in the allowed set, and proceeds
otherwise; it is by construction a pure function of the context and the
allowed roles.  Composed on the patient-delete endpoint, a nurse identity
receives 403 with the table untouched, while an admin identity receives 200
and the matching patient row is soft-deleted: its flag becomes true, the
table keeps its length, and the row remains present. -/
theorem c2_requireRole_and_softDelete :
    (∀ roles : List Role, requireRole roles none = GateResult.reject 401)
  ∧ (∀ (roles : List Role) (u : AuthUser), roles.contains u.role = false →
      requireRole roles (some u) = GateResult.reject 403)
  ∧ (∀ (roles : List Role) (u : AuthUser), roles.contains u.role = true →
      requireRole roles (some u) = GateResult.proceed)
  ∧ (∀ (u : AuthUser) (patients : List Patient) (now pid : Nat),
      u.role = Role.nurse →
      deletePatientRoute (some u) patients now pid = (patients, 403))
  ∧ (∀ (u : AuthUser) (patients : List Patient) (now pid : Nat),
      u.role = Role.admin →
        (deletePatientRoute (some u) patients now pid).2 = 200
      ∧ (deletePatientRoute (some u) patients now pid).1.length = patients.length
      ∧ (∀ q ∈ (deletePatientRoute (some u) patients now pid).1,
          q.id = pid → q.is_deleted = true)
      ∧ (∀ q ∈ patients, q.id = pid →
          ∃ r ∈ (deletePatientRoute (some u) patients now pid).1,
            r.id = pid ∧ r.is_deleted = true)) := by
  refine ⟨?_, ?_, ?_, ?_, ?_⟩
  · intro roles
    rfl
  · intro roles u h
    have h2 : u.role ∉ roles := by simpa using h
    simp [requireRole, h2]
  · intro roles u h
    have h2 : u.role ∈ roles := by simpa using h
    simp [requireRole, h2]
  · intro u patients now pid h
    simp [deletePatientRoute, requireRole, h]
  · intro u patients now pid h
    have hroute : deletePatientRoute (some u) patients now pid =
        softDeletePatient patients u.id now pid := by
      simp [deletePatientRoute, requireRole, h]
    refine ⟨by rw [hroute]; rfl, by rw [hroute]; simp [softDeletePatient], ?_, ?_⟩
    · intro q hq hid
      rw [hroute] at hq
      rcases softDelete_mem_cases hq with ⟨_, hne⟩ | ⟨hd, _, _⟩
      · exact absurd hid hne
      · exact hd
    · intro q hq hid
      rw [hroute]
      exact softDelete_retains hq hid

theorem c2_witness :
    deletePatientRoute (some nurseU) [patEx] 100 5 = ([patEx], 403)
  ∧ (deletePatientRoute (some adminU) [patEx] 100 5).2 = 200
  ∧ (∀ q ∈ (deletePatientRoute (some adminU) [patEx] 100 5).1,
      q.id = 5 → q.is_deleted = true) := by
  have h := c2_requireRole_and_softDelete
  exact ⟨h.2.2.2.1 nurseU [patEx] 100 5 rfl,
    (h.2.2.2.2 adminU [patEx] 100 5 rfl).1,
    (h.2.2.2.2 adminU [patEx] 100 5 rfl).2.2.1⟩

/-- C4: the pagination envelope of a list endpoint carries the requested
page as currentPage, the query count as totalCount, the ceiling of count
over limit as totalPages (characterized as the least page count covering the
collection), hasNext exactly when the page is before the last, hasPrev
exactly when the page is after the first, and the returned slice is the
inclusive index range from offset to offset plus limit minus one of the
query, where offset is page minus one times limit. -/
theorem c4_pagination_envelope (items : List Patient) (page limit : Nat)
    (_hp : 1 ≤ page) (hl1 : 1 ≤ limit) (_hl2 : limit ≤ 100) :
    (paginate items page limit).2.currentPage = page
  ∧ (paginate items page limit).2.totalCount = items.length
  ∧ (paginate items page limit).2.totalPages = items.length ⌈/⌉ limit
  ∧ (∀ m : Nat, (paginate items page limit).2.totalPages ≤ m ↔
      items.length ≤ limit * m)
  ∧ ((paginate items page limit).2.hasNext = true ↔
      page < (paginate items page limit).2.totalPages)
  ∧ ((paginate items page limit).2.hasPrev = true ↔ 1 < page)
  ∧ (∀ i : Nat, (paginate items page limit).1[i]? =
      if i < limit then items[(page - 1) * limit + i]? else none) := by
  refine ⟨rfl, rfl, rfl, ?_, ?_, ?_, ?_⟩
  · intro m
    have h0 : 0 < limit := hl1
    have heq : (paginate items page limit).2.totalPages = items.length ⌈/⌉ limit := rfl
    rw [heq]
    exact ceilDiv_le_iff_le_mul h0
  · simp [paginate]
  · simp [paginate]
  · intro i
    simp [paginate, List.getElem?_take, List.getElem?_drop]

theorem c4_witness :
    (paginate items25 2 10).1.length = 10
  ∧ (paginate items25 2 10).2.hasNext = true
  ∧ (paginate items25 2 10).2.hasPrev = true
  ∧ (paginate items25 2 10).2.totalPages = 3 := by
  have h := c4_pagination_envelope items25 2 10 (by decide) (by decide) (by decide)
  exact ⟨by decide, by decide, by decide, h.2.2.1.trans (by decide)⟩


/-- Appending a row with the probed email to a store where the probe missed
makes the probe find exactly that row. -/
theorem findByEmail_append_single {store : Store} {u : Personnel} {e : String}
    (h : findByEmail store e = none) (he : u.email = e) :
    findByEmail (store ++ [u]) e = some u := by
  unfold findByEmail at *
  rw [List.find?_append, h]
  simp [he]

/-- C5: on a validated payload, signup with a fresh email inserts exactly one
new identity and answers 201 with a token, and a second signup with the same
email answers 409 and inserts nothing; signup with an already-taken email
answers 409 and inserts nothing. -/
theorem c5_signup_unique_email (store : Store) (hash : String → String)
    (fid1 fid2 : Nat) (p : SignupPayload) :
    (findByEmail store p.email = none →
        (signup store hash fid1 p).2.status = 201
      ∧ (signup store hash fid1 p).2.token ≠ none
      ∧ (∃ u, (signup store hash fid1 p).1 = store ++ [u] ∧ u.email = p.email)
      ∧ (∀ q : SignupPayload, q.email = p.email →
          (signup (signup store hash fid1 p).1 hash fid2 q).2.status = 409
        ∧ (signup (signup store hash fid1 p).1 hash fid2 q).1 =
            (signup store hash fid1 p).1))
  ∧ (findByEmail store p.email ≠ none →
        (signup store hash fid1 p).2.status = 409
      ∧ (signup store hash fid1 p).1 = store) := by
  constructor
  · intro h
    refine ⟨by simp [signup, h], by simp [signup, h],
      ⟨signupNewUser hash fid1 p, by simp [signup, h], rfl⟩, ?_⟩
    intro q hq
    have hstore : (signup store hash fid1 p).1 = store ++ [signupNewUser hash fid1 p] := by
      simp [signup, h]
    have hfind : findByEmail (signup store hash fid1 p).1 q.email =
        some (signupNewUser hash fid1 p) := by
      rw [hstore, hq]
      exact findByEmail_append_single h rfl
    generalize (signup store hash fid1 p).1 = s1 at hfind ⊢
    constructor
    · simp [signup, hfind]
    · simp [signup, hfind]
  · intro h
    cases heq : findByEmail store p.email with
    | none => exact absurd heq h
    | some u => exact ⟨by simp [signup, heq], by simp [signup, heq]⟩

theorem c5_witness :
    (signup storeAdmin hashEx 4 signupEx).2.status = 201
  ∧ (signup (signup storeAdmin hashEx 4 signupEx).1 hashEx 5 signupEx).2.status = 409
  ∧ (signup (signup storeAdmin hashEx 4 signupEx).1 hashEx 5 signupEx).1 =
      (signup storeAdmin hashEx 4 signupEx).1 := by
  have h := (c5_signup_unique_email storeAdmin hashEx 4 5 signupEx).1 (by decide)
  exact ⟨h.1, (h.2.2.2 signupEx rfl).1, (h.2.2.2 signupEx rfl).2⟩

/-- C6: a signin whose email resolves to an existing active identity but
whose password fails the bcrypt compare answers 401 with no token issued and
leaves the credential store untouched, so last_login is not mutated: the
last_login update sits strictly after the password check. -/
theorem c6_signin_wrong_password (store : Store) (compare : String → String → Bool)
    (now : Nat) (email password : String) (u : Personnel)
    (h1 : findByEmail store email = some u) (h2 : u.is_active = true)
    (h3 : compare password u.password_hash = false) :
    signin store compare now email password =
      (store, { status := 401, token := none }) := by
  simp [signin, h1, h2, h3]

theorem c6_witness :
    signin storeAdmin compareEx 50 "admin@x.com" "wrong" =
      (storeAdmin, { status := 401, token := none }) :=
  c6_signin_wrong_password storeAdmin compareEx 50 "admin@x.com" "wrong"
    { id := 3, email := "admin@x.com", password_hash := "Admin123!#",
      first_name := "Ada", last_name := "Admin", role := Role.admin,
      license_number := some "ADMIN001", is_active := true, last_login := none }
    (by decide) (by decide) (by decide)


/-- C7 counterexample: a 15 MiB file of a disallowed mime type exceeds the
default maximum, yet the intake fails with the invalid-type rejection, not
the too-large rejection, because the multer fileFilter decides before any
bytes are streamed.  The claim, which promises PayloadTooLarge for every
oversized file, is therefore false as stated. -/
theorem c7_counterexample :
    multerCheck defaultUploadConfig bigPdf = MulterResult.invalidType
  ∧ multerCheck defaultUploadConfig bigPdf ≠ MulterResult.tooLarge := by
  constructor
  · rfl
  · intro h
    exact absurd h (by decide)

/-- C7 amended: a file whose mime type is outside the allow-list fails with
the invalid-type rejection (regardless of size); a file of an allowed type
whose size exceeds the configured maximum fails with the too-large
rejection; a file of an allowed type within the limit is accepted, and the
accepted upload inserts a metadata row whose file_path names a blob present
in the bucket. -/
theorem c7_amended_file_intake (cfg : UploadConfig) (f : UploadedFile) :
    (cfg.allowedTypes.contains f.mimetype = false →
      multerCheck cfg f = MulterResult.invalidType)
  ∧ (cfg.allowedTypes.contains f.mimetype = true → cfg.maxFileSize < f.size →
      multerCheck cfg f = MulterResult.tooLarge)
  ∧ (cfg.allowedTypes.contains f.mimetype = true → f.size ≤ cfg.maxFileSize →
      multerCheck cfg f = MulterResult.accepted f)
  ∧ (∀ (patients : List Patient) (storage : List String)
        (rows : List ImageRecord) (user : AuthUser) (publicUrl : String → String)
        (pid : Nat) (imageType bodyPart notes : Option String)
        (uuid : String) (freshId : Nat) (ppat : Patient),
      cfg.allowedTypes.contains f.mimetype = true → f.size ≤ cfg.maxFileSize →
      findActivePatient patients pid = some ppat →
      ∃ r : ImageRecord,
        (uploadXray cfg patients storage rows user publicUrl (some f) (some pid)
            imageType bodyPart notes uuid freshId false).2.1 = rows ++ [r]
      ∧ r.file_path ∈ (uploadXray cfg patients storage rows user publicUrl
            (some f) (some pid) imageType bodyPart notes uuid freshId false).1
      ∧ (uploadXray cfg patients storage rows user publicUrl (some f) (some pid)
            imageType bodyPart notes uuid freshId false).2.2 =
          UploadOutcome.created) := by
  refine ⟨?_, ?_, ?_, ?_⟩
  · intro h
    have hm : f.mimetype ∉ cfg.allowedTypes := by simpa using h
    simp [multerCheck, hm]
  · intro h1 h2
    have hm : f.mimetype ∈ cfg.allowedTypes := by simpa using h1
    simp [multerCheck, hm, h2]
  · intro h1 h2
    have hm : f.mimetype ∈ cfg.allowedTypes := by simpa using h1
    simp [multerCheck, hm, Nat.not_lt.mpr h2]
  · intro patients storage rows user publicUrl pid imageType bodyPart notes
      uuid freshId ppat h1 h2 hpat
    have hm : f.mimetype ∈ cfg.allowedTypes := by simpa using h1
    have hacc : multerCheck cfg f = MulterResult.accepted f := by
      simp [multerCheck, hm, Nat.not_lt.mpr h2]
    refine ⟨xrayNewRecord user publicUrl f pid imageType bodyPart notes uuid freshId,
      ?_, ?_, ?_⟩
    · simp [uploadXray, hacc, hpat]
    · simp [uploadXray, hacc, hpat, xrayNewRecord]
    · simp [uploadXray, hacc, hpat]

theorem c7_witness :
    multerCheck defaultUploadConfig smallPng = MulterResult.accepted smallPng
  ∧ ∃ r : ImageRecord,
      (uploadXray defaultUploadConfig [patEx] [] [] adminU (fun s => s)
          (some smallPng) (some 5) none none none "u1" 21 false).2.1 = [] ++ [r]
    ∧ r.file_path ∈ (uploadXray defaultUploadConfig [patEx] [] [] adminU
          (fun s => s) (some smallPng) (some 5) none none none "u1" 21 false).1 := by
  have h := c7_amended_file_intake defaultUploadConfig smallPng
  refine ⟨h.2.2.1 (by decide) (by decide), ?_⟩
  rcases h.2.2.2 [patEx] [] [] adminU (fun s => s) 5 none none none "u1" 21 patEx
      (by decide) (by decide) (by decide) with ⟨r, hr1, hr2, hr3⟩
  exact ⟨r, hr1, hr2⟩

/-- C8: when the metadata insert fails after the blob was uploaded under a
fresh storage key, the blob is removed from the bucket before the error
answer, so the failed upload leaves the bucket and the metadata table
exactly as they were: no metadata row and no orphaned blob. -/
theorem c8_blob_cleanup_on_db_failure (cfg : UploadConfig)
    (patients : List Patient) (storage : List String) (rows : List ImageRecord)
    (user : AuthUser) (publicUrl : String → String) (f : UploadedFile)
    (pid : Nat) (imageType bodyPart notes : Option String) (uuid : String)
    (freshId : Nat) (ppat : Patient)
    (hacc : multerCheck cfg f = MulterResult.accepted f)
    (hpat : findActivePatient patients pid = some ppat)
    (hfresh : xrayFilePath pid uuid (extnameOf f.originalname) ∉ storage) :
    uploadXray cfg patients storage rows user publicUrl (some f) (some pid)
        imageType bodyPart notes uuid freshId true =
      (storage, rows, UploadOutcome.insertFailed) := by
  have herase : (storage ++ [xrayFilePath pid uuid (extnameOf f.originalname)]).erase
      (xrayFilePath pid uuid (extnameOf f.originalname)) = storage := by
    rw [List.erase_append_right _ hfresh]
    simp
  simp [uploadXray, hacc, hpat, herase]

theorem c8_witness :
    uploadXray defaultUploadConfig [patEx] ["5/old.png"] [] adminU (fun s => s)
        (some smallPng) (some 5) none none none "u2" 22 true =
      (["5/old.png"], [], UploadOutcome.insertFailed) :=
  c8_blob_cleanup_on_db_failure defaultUploadConfig [patEx] ["5/old.png"] []
    adminU (fun s => s) smallPng 5 none none none "u2" 22 patEx
    (by decide) (by decide) (by decide)


/-- C9: every authenticated mutating write carries the acting identity: any
row present after a patient create, patient update, patient soft delete,
symptom recording (rows and session), X-ray upload or X-ray metadata update
either already sat in the table or carries the actor in its
createdBy/updatedBy/deletedBy/recordedBy/uploadedBy column. -/
theorem c9_writes_carry_actor (user : AuthUser) :
    (∀ (patients : List Patient) (fid : Nat) (p : PatientPayload),
      ∀ q ∈ (createPatient patients user fid p).1,
        q ∈ patients ∨ q.created_by = user.id)
  ∧ (∀ (patients : List Patient) (pid : Nat) (u : PatientUpdate),
      ∀ q ∈ (updatePatient patients user pid u).1,
        q ∈ patients ∨ q.updated_by = some user.id)
  ∧ (∀ (patients : List Patient) (now pid : Nat),
      ∀ q ∈ (softDeletePatient patients user.id now pid).1,
        q ∈ patients ∨ q.deleted_by = some user.id)
  ∧ (∀ (patients : List Patient) (symRows : List SymptomRow)
        (sessions : List SymptomSession) (pid : Nat)
        (symptoms : List SymptomInput) (notes : Option String) (fid sid : Nat),
      (∀ q ∈ (recordSymptoms patients symRows sessions user pid symptoms
          notes fid sid).1, q ∈ symRows ∨ q.recorded_by = user.id)
    ∧ (∀ s ∈ (recordSymptoms patients symRows sessions user pid symptoms
          notes fid sid).2.1, s ∈ sessions ∨ s.recorded_by = user.id))
  ∧ (∀ (cfg : UploadConfig) (patients : List Patient) (storage : List String)
        (rows : List ImageRecord) (publicUrl : String → String)
        (file : Option UploadedFile) (patientId : Option Nat)
        (imageType bodyPart notes : Option String) (uuid : String)
        (fid : Nat) (dbf : Bool),
      ∀ r ∈ (uploadXray cfg patients storage rows user publicUrl file
          patientId imageType bodyPart notes uuid fid dbf).2.1,
        r ∈ rows ∨ r.uploaded_by = user.id)
  ∧ (∀ (rows : List ImageRecord) (iid : Nat)
        (notes imageType bodyPart : Option String),
      ∀ r ∈ (updateXrayMeta rows user iid notes imageType bodyPart).1,
        r ∈ rows ∨ r.updated_by = some user.id) := by
  refine ⟨?_, ?_, ?_, ?_, ?_, ?_⟩
  · intro patients fid p q hq
    cases hdup : findDuplicatePatient patients p with
    | some d =>
      simp [createPatient, hdup] at hq
      exact Or.inl hq
    | none =>
      simp [createPatient, hdup] at hq
      rcases hq with h | h
      · exact Or.inl h
      · exact Or.inr (by rw [h])
  · intro patients pid u q hq
    cases hf : patients.find? (fun p => p.id == pid) with
    | none =>
      simp [updatePatient, hf] at hq
      exact Or.inl hq
    | some d =>
      simp only [updatePatient, hf] at hq
      rcases List.mem_map.1 hq with ⟨p0, hp0, rfl⟩
      by_cases h : p0.id = pid
      · right
        simp [h, applyPatientUpdate]
      · left
        have hb : (p0.id == pid) = false := by simp [h]
        simpa [hb] using hp0
  · intro patients now pid q hq
    rcases softDelete_mem_cases hq with ⟨hm, _⟩ | ⟨_, _, hdel⟩
    · exact Or.inl hm
    · exact Or.inr hdel
  · intro patients symRows sessions pid symptoms notes fid sid
    cases hfa : findActivePatient patients pid with
    | none =>
      constructor
      · intro q hq
        simp [recordSymptoms, hfa] at hq
        exact Or.inl hq
      · intro s hs
        simp [recordSymptoms, hfa] at hs
        exact Or.inl hs
    | some pp =>
      constructor
      · intro q hq
        simp [recordSymptoms, hfa] at hq
        rcases hq with h | ⟨s, hs, hmem, rfl⟩
        · exact Or.inl h
        · exact Or.inr rfl
      · intro s hs
        simp [recordSymptoms, hfa] at hs
        rcases hs with h | h
        · exact Or.inl h
        · exact Or.inr (by rw [h])
  · intro cfg patients storage rows publicUrl file patientId imageType
      bodyPart notes uuid fid dbf r hr
    cases hf0 : file with
    | none =>
      simp [uploadXray, hf0] at hr
      exact Or.inl hr
    | some f =>
      cases hmc : multerCheck cfg f with
      | invalidType =>
        simp [uploadXray, hf0, hmc] at hr
        exact Or.inl hr
      | tooLarge =>
        simp [uploadXray, hf0, hmc] at hr
        exact Or.inl hr
      | accepted g =>
        cases hp0 : patientId with
        | none =>
          simp [uploadXray, hf0, hmc, hp0] at hr
          exact Or.inl hr
        | some pid =>
          cases hfa : findActivePatient patients pid with
          | none =>
            simp [uploadXray, hf0, hmc, hp0, hfa] at hr
            exact Or.inl hr
          | some pp =>
            cases dbf with
            | true =>
              simp [uploadXray, hf0, hmc, hp0, hfa] at hr
              exact Or.inl hr
            | false =>
              simp [uploadXray, hf0, hmc, hp0, hfa] at hr
              rcases hr with h | h
              · exact Or.inl h
              · exact Or.inr (by rw [h]; rfl)
  · intro rows iid notes imageType bodyPart r hr
    cases hf : rows.find? (fun x => x.id == iid) with
    | none =>
      simp [updateXrayMeta, hf] at hr
      exact Or.inl hr
    | some d =>
      simp only [updateXrayMeta, hf] at hr
      rcases List.mem_map.1 hr with ⟨r0, hr0, rfl⟩
      by_cases h : r0.id = iid
      · right
        simp [h]
      · left
        have hb : (r0.id == iid) = false := by simp [h]
        simpa [hb] using hr0

theorem c9_witness :
    createdRowEx ∈ ([] : List Patient) ∨ createdRowEx.created_by = adminU.id :=
  (c9_writes_carry_actor adminU).1 [] 11 patientPayloadEx createdRowEx (by decide)


/-- A single-row fetch by id commutes with a row-wise map that preserves the
id column. -/
theorem find_id_map (f : Patient → Patient) (hf : ∀ p, (f p).id = p.id)
    (l : List Patient) (qid : Nat) :
    (l.map f).find? (fun p => p.id == qid) =
      (l.find? (fun p => p.id == qid)).map f := by
  induction l with
  | nil => rfl
  | cons a t ih =>
    simp only [List.map_cons, List.find?]
    rw [hf a]
    by_cases h : (a.id == qid) = true
    · simp [h]
    · simp only [Bool.not_eq_true] at h
      simp [h, ih]

/-- The row-wise update of a patient soft delete preserves the id column. -/
theorem softDelete_map_id (actor now pid : Nat) (p : Patient) :
    ((fun p => if p.id == pid then
        { p with is_deleted := true, deleted_at := some now,
                 deleted_by := some actor }
      else p) p).id = p.id := by
  by_cases h : (p.id == pid) = true
  · simp [h]
  · simp [h]

/-- Soft deleting a patient who was present and not yet deleted strictly
decreases the is_deleted=false count used by the stats endpoint. -/
theorem statsTotal_softDelete_lt (patients : List Patient) (actor now pid : Nat)
    (h : ∃ q ∈ patients, q.id = pid ∧ q.is_deleted = false) :
    statsTotalPatients (softDeletePatient patients actor now pid).1 <
      statsTotalPatients patients := by
  rcases h with ⟨q, hql, hqid, hqdel⟩
  have hsplit := List.mem_iff_append.mp hql
  rcases hsplit with ⟨s, t, rfl⟩
  unfold statsTotalPatients softDeletePatient
  rw [← List.countP_eq_length_filter, ← List.countP_eq_length_filter]
  rw [List.countP_map]
  rw [List.countP_append, List.countP_append, List.countP_cons, List.countP_cons]
  have hmono : ∀ (l : List Patient),
      l.countP ((fun p => p.is_deleted == false) ∘ (fun p =>
        if p.id == pid then
          { p with is_deleted := true, deleted_at := some now,
                   deleted_by := some actor }
        else p)) ≤ l.countP (fun p => p.is_deleted == false) := by
    intro l
    apply List.countP_mono_left
    intro a _ ha
    by_cases hid : a.id = pid
    · simp [hid] at ha
    · simpa [hid] using ha
  have hs := hmono s
  have ht := hmono t
  have hq1 : ((fun p => p.is_deleted == false) ∘ (fun p =>
      if p.id == pid then
        { p with is_deleted := true, deleted_at := some now,
                 deleted_by := some actor }
      else p)) q = false := by
    simp [hqid]
  have hq2 : (q.is_deleted == false) = true := by
    simp [hqdel]
  rw [hq1, hq2]
  have e1 : (if false = true then 1 else 0) = 0 := rfl
  have e2 : (if true = true then 1 else 0) = 1 := rfl
  rw [e1, e2]
  omega

/-- C10: after a patient soft delete the get-by-id query still returns the
row and the list query still contains it (neither filters is_deleted), while
the active-patient probe of the symptom and upload routes no longer finds it
and the stats count drops: those two exclude soft-deleted patients. -/
theorem c10_soft_deleted_visibility (patients : List Patient)
    (actor now pid : Nat) :
    (getPatientById patients pid ≠ none →
      getPatientById (softDeletePatient patients actor now pid).1 pid ≠ none)
  ∧ (patientListQuery (softDeletePatient patients actor now pid).1 "" =
      (softDeletePatient patients actor now pid).1)
  ∧ (∀ q ∈ (softDeletePatient patients actor now pid).1, q.is_deleted = true →
      q ∈ patientListQuery (softDeletePatient patients actor now pid).1 "")
  ∧ findActivePatient (softDeletePatient patients actor now pid).1 pid = none
  ∧ ((∃ q ∈ patients, q.id = pid ∧ q.is_deleted = false) →
      statsTotalPatients (softDeletePatient patients actor now pid).1 <
        statsTotalPatients patients) := by
  refine ⟨?_, ?_, ?_, ?_, statsTotal_softDelete_lt patients actor now pid⟩
  · intro h
    unfold getPatientById at h ⊢
    unfold softDeletePatient
    rw [find_id_map _ (softDelete_map_id actor now pid)]
    intro hcon
    rcases Option.map_eq_none.mp hcon with hnone
    exact h hnone
  · simp [patientListQuery]
  · intro q hq _
    have heq : patientListQuery (softDeletePatient patients actor now pid).1 "" =
        (softDeletePatient patients actor now pid).1 := by
      simp [patientListQuery]
    rw [heq]
    exact hq
  · unfold findActivePatient
    rw [List.find?_eq_none]
    intro x hx
    rcases softDelete_mem_cases hx with ⟨_, hne⟩ | ⟨hdel, _, _⟩
    · simp [hne]
    · simp [hdel]

theorem c10_witness :
    getPatientById (softDeletePatient [patEx] 9 100 5).1 5 ≠ none
  ∧ findActivePatient (softDeletePatient [patEx] 9 100 5).1 5 = none
  ∧ statsTotalPatients (softDeletePatient [patEx] 9 100 5).1 <
      statsTotalPatients [patEx] := by
  have h := c10_soft_deleted_visibility [patEx] 9 100 5
  exact ⟨h.1 (by decide), h.2.2.2.1,
    h.2.2.2.2 ⟨patEx, by decide, rfl, rfl⟩⟩

end MedBackend
